import Mathlib

/-!
Shallow embedding of the `edgar-sec` MCP server repository
(`src/server.py`, `edgar_sec/client.py`, `edgar_sec/utils/decorators.py`,
`edgar_sec/utils/serializer.py`) together with proofs of the testable
properties of its specification.

The repository is a thin orchestration layer around an external EDGAR
library.  External calls (network fetches, `edgar.Company` resolution,
pandas statement frames) are modelled as oracle functions supplied as
parameters; the repository's own logic — pagination, the `lru_cache`
memo table, the error-envelope decorator, JSON dumping and the filing
serializer — is translated function by function from the source.
-/

/-- Python exception value as observed by `process_error`: its `str()`
message, plus the optional `error_code` / `error_traceback` attributes
(present on `EdgarError`, absent on builtin exceptions). -/
structure PyExc where
  message : String
  error_code : Option Int
  error_traceback : Option String

/-- Construction of `EdgarError(message, code, tb)` from `client.py`:
the attributes `error_code` and `error_traceback` are always set. -/
def edgarError (msg : String) (code : Int) (tb : String) : PyExc :=
  ⟨msg, some code, some tb⟩

/-- Python `ZeroDivisionError` raised by `//` with divisor 0: no
`error_code` / `error_traceback` attributes. -/
def zeroDivisionError : PyExc :=
  ⟨"integer division or modulo by zero", none, none⟩

/-- Hexadecimal digit character (lower case), as used by Python's
`json` module in `\uXXXX` escapes. -/
def hexDigitChar (n : Nat) : Char :=
  if n < 10 then Char.ofNat (48 + n) else Char.ofNat (87 + n)

/-- Four-digit hexadecimal rendering of `n % 0x10000`. -/
def uHex4 (n : Nat) : String :=
  String.mk [hexDigitChar (n / 4096 % 16), hexDigitChar (n / 256 % 16),
    hexDigitChar (n / 16 % 16), hexDigitChar (n % 16)]

/-- Escape of one character inside a JSON string literal, following
CPython `json.dumps` with its default `ensure_ascii=True`. -/
def escapeJsonChar (c : Char) : String :=
  if c = '"' then "\\\""
  else if c = '\\' then "\\\\"
  else if c = '\n' then "\\n"
  else if c = '\t' then "\\t"
  else if c = '\r' then "\\r"
  else if c = '\x08' then "\\b"
  else if c = '\x0c' then "\\f"
  else if c.toNat < 0x20 then "\\u" ++ uHex4 c.toNat
  else if c.toNat < 0x7f then String.singleton c
  else if c.toNat < 0x10000 then "\\u" ++ uHex4 c.toNat
  else
    "\\u" ++ uHex4 (0xd800 + (c.toNat - 0x10000) / 0x400) ++
      "\\u" ++ uHex4 (0xdc00 + (c.toNat - 0x10000) % 0x400)

/-- Python `json.dumps` rendering of a string value. -/
def pyJsonStr (s : String) : String :=
  "\"" ++ String.join (s.toList.map escapeJsonChar) ++ "\""

/-- Zero padding on the left to width `w` (Python `str.zfill` on a
digit string, also used for `date.isoformat` components). -/
def padZeros (w : Nat) (s : String) : String :=
  if w ≤ s.length then s else String.mk (List.replicate (w - s.length) '0') ++ s

/-- Python `datetime.date.isoformat()`: `YYYY-MM-DD`. -/
def isoformatDate (y m d : Nat) : String :=
  padZeros 4 (toString y) ++ "-" ++ padZeros 2 (toString m) ++ "-" ++ padZeros 2 (toString d)

/-- JSON-serializable Python value.  `date` stands for a
`datetime.date` object inside a structure handed to `json.dumps`;
both call sites of the repository serialize it through a `default`
hook (`str` or `filing_serializer`) that renders its ISO form. -/
inductive JVal where
  | null
  | bool (b : Bool)
  | num (n : Int)
  | str (s : String)
  | date (y m d : Nat)
  | arr (items : List JVal)
  | obj (fields : List (String × JVal))

mutual

/-- Python `json.dumps` with default separators `", "` and `": "`,
`ensure_ascii=True`, and a `default` hook mapping `date` objects to
their ISO string (`str` and `filing_serializer` agree on dates). -/
def JVal.dumps : JVal → String
  | .null => "null"
  | .bool b => if b then "true" else "false"
  | .num n => toString n
  | .str s => pyJsonStr s
  | .date y m d => pyJsonStr (isoformatDate y m d)
  | .arr items => "[" ++ dumpsList items ++ "]"
  | .obj fields => "\x7b" ++ dumpsFields fields ++ "\x7d"

/-- Comma-separated rendering of JSON array items. -/
def dumpsList : List JVal → String
  | [] => ""
  | [v] => v.dumps
  | v :: v' :: rest => v.dumps ++ ", " ++ dumpsList (v' :: rest)

/-- Comma-separated rendering of JSON object entries, keys in
insertion order as Python dicts preserve it. -/
def dumpsFields : List (String × JVal) → String
  | [] => ""
  | [(k, v)] => pyJsonStr k ++ ": " ++ v.dumps
  | (k, v) :: kv :: rest => pyJsonStr k ++ ": " ++ v.dumps ++ ", " ++ dumpsFields (kv :: rest)

end

/-- Python dict with string keys in insertion order, the shape of one
filing record or one financial-statement row. -/
abbrev PyDict := List (String × JVal)

/-- Error envelope dict built by `process_error` in
`edgar_sec/utils/decorators.py`: `getattr(e, "error_code", 500)` and
`getattr(e, "error_traceback", "")` become `Option.getD`. -/
def errorEnvelope (e : PyExc) : JVal :=
  .obj [("error", .bool true), ("message", .str e.message),
    ("code", .num (e.error_code.getD 500)), ("traceback", .str (e.error_traceback.getD ""))]

/-- Decorator `process_error` from `edgar_sec/utils/decorators.py`:
run the wrapped handler; on any exception return the JSON dump of the
error envelope instead of propagating.  The Lean return type is a plain
`String`, not an `Except`, which is exactly the never-propagates
guarantee. -/
def process_error (f : Unit → Except PyExc String) : String :=
  match f () with
  | .ok s => s
  | .error e => JVal.dumps (errorEnvelope e)

/-- Arbitrary Python object as seen by `filing_serializer`. -/
inductive PyObj where
  | pdate (y m d : Nat)
  | pint (n : Int)
  | pstr (s : String)
  | pbool (b : Bool)
  | pnone

/-- Python `str()` on the modelled objects (`str(date)` is its ISO
form). -/
def pyStr : PyObj → String
  | .pdate y m d => isoformatDate y m d
  | .pint n => toString n
  | .pstr s => s
  | .pbool b => if b then "True" else "False"
  | .pnone => "None"

/-- Whether the object is a `datetime.date` (the `isinstance` test in
`filing_serializer`). -/
def isDateObj : PyObj → Bool
  | .pdate _ _ _ => true
  | _ => false

/-- Function `filing_serializer` from `edgar_sec/utils/serializer.py`:
ISO form for dates, `str(obj)` for everything else. -/
def filing_serializer : PyObj → String
  | .pdate y m d => isoformatDate y m d
  | o => pyStr o

/-- Financial table kinds, the `Literal` type of `table_type` in both
`server.py` and `client.py`. -/
inductive TableType where
  | balance_sheet
  | income_statement
  | cash_flow_statement
  | comprehensive_income
  | equity
  | cover_page

/-- Facade instance as seen from `server.py`: each `EdgarClient`
method that the tools call is an oracle that either returns a value or
raises.  (The methods themselves are embedded separately from
`client.py` below; at the tool layer they are the boundary.) -/
structure ClientM where
  get_valid_cik_ticker_data : Except PyExc JVal
  get_valid_forms_data : Except PyExc JVal
  get_company_info : String → Except PyExc JVal
  get_company_name : String → Except PyExc JVal
  get_company_tickers : String → Except PyExc JVal
  get_company_sic_description : String → Except PyExc JVal
  get_company_filings : String → Except PyExc (List PyDict)
  get_latest_financials : String → TableType → Bool → Except PyExc (List PyDict)

namespace Server

/-- State of `functools.lru_cache(maxsize=1)` on
`_fetch_company_filings`: at most one `(key, value)` pair. -/
structure CacheSt where
  entry : Option (String × List PyDict)

/-- Cache state at process start: empty. -/
def initCache : CacheSt := ⟨none⟩

/-- Outcome of one `_fetch_company_filings(entity_identifier)` call:
the returned value or raised exception, the cache state afterwards,
and how many times the upstream facade method
`client_instance.get_company_filings` was invoked (0 or 1). -/
structure FetchOut where
  result : Except PyExc (List PyDict)
  state : CacheSt
  upstreamCalls : Nat

/-- Cache-miss path of `_fetch_company_filings`: run the wrapped body
(client check, then the facade call).  `lru_cache` stores the result
only on normal return, never on an exception, and `maxsize=1` evicts
the previous entry. -/
def fetchMiss (client : Option ClientM) (st : CacheSt) (eid : String) : FetchOut :=
  match client with
  | none => ⟨.error (edgarError "EDGAR client not initialized" 503 ""), st, 0⟩
  | some c =>
    match c.get_company_filings eid with
    | .ok v => ⟨.ok v, ⟨some (eid, v)⟩, 1⟩
    | .error e => ⟨.error e, st, 1⟩

/-- Function `_fetch_company_filings` from `server.py` under its
`@lru_cache(maxsize=1)` decorator: return the cached value on a key
hit, otherwise run the body and cache the result. -/
def fetch_company_filings (client : Option ClientM) (st : CacheSt) (eid : String) : FetchOut :=
  match st.entry with
  | some (k, v) => if k = eid then ⟨.ok v, st, 0⟩ else fetchMiss client st eid
  | none => fetchMiss client st eid

/-- Normalization of one slice bound by CPython list slicing:
negative indices count from the end, then both are clamped to
`[0, len]`. -/
def pySliceBound (len : Nat) (i : Int) : Nat :=
  if i < 0 then ((len : Int) + i).toNat else min i.toNat len

/-- CPython `xs[start:stop]` (step 1). -/
def pySlice {α : Type} (xs : List α) (start stop : Int) : List α :=
  (xs.take (pySliceBound xs.length stop)).drop (pySliceBound xs.length start)

/-- Pagination metadata and page slice, the `result` dict built in
`get_company_filings` in `server.py`. -/
structure PageResult where
  filings : List PyDict
  page : Int
  page_size : Int
  total_items : Int
  total_pages : Int

/-- Body of the tool `get_company_filings` after the cached fetch:
compute `start_idx`, `end_idx`, the list slice, and the pagination
dict whose `total_pages` is `(total + page_size - 1) // page_size`
(Python floor division, `ZeroDivisionError` when `page_size == 0`). -/
def paginateFilings (allFilings : List PyDict) (page pageSize : Int) :
    Except PyExc PageResult :=
  let total : Int := allFilings.length
  let startIdx := (page - 1) * pageSize
  let endIdx := min (startIdx + pageSize) total
  let slice := pySlice allFilings startIdx endIdx
  if pageSize = 0 then .error zeroDivisionError
  else
    .ok ⟨slice, page, pageSize, total, Int.fdiv (total + pageSize - 1) pageSize⟩

/-- JSON shape of the successful `get_company_filings` result. -/
def pageResultJson (pr : PageResult) : JVal :=
  .obj [("filings", .arr (pr.filings.map .obj)),
    ("pagination", .obj [("page", .num pr.page), ("page_size", .num pr.page_size),
      ("total_items", .num pr.total_items), ("total_pages", .num pr.total_pages)])]

/-- Shared head of every tool body: `raise EdgarError("EDGAR client
not initialized", 503)` when the global client is absent. -/
def requireClient (client : Option ClientM) : Except PyExc ClientM :=
  match client with
  | none => .error (edgarError "EDGAR client not initialized" 503 "")
  | some c => .ok c

/-- Resource `get_valid_cik_ticker` from `server.py` under
`process_error`. -/
def get_valid_cik_ticker (client : Option ClientM) : String :=
  process_error fun _ => do
    let c ← requireClient client
    let v ← c.get_valid_cik_ticker_data
    pure v.dumps

/-- Resource `get_valid_forms` from `server.py` under
`process_error`. -/
def get_valid_forms (client : Option ClientM) : String :=
  process_error fun _ => do
    let c ← requireClient client
    let v ← c.get_valid_forms_data
    pure v.dumps

/-- Tool `get_company_info` from `server.py` under `process_error`. -/
def get_company_info (client : Option ClientM) (eid : String) : String :=
  process_error fun _ => do
    let c ← requireClient client
    let v ← c.get_company_info eid
    pure v.dumps

/-- Tool `get_company_name` from `server.py` under `process_error`. -/
def get_company_name (client : Option ClientM) (eid : String) : String :=
  process_error fun _ => do
    let c ← requireClient client
    let v ← c.get_company_name eid
    pure v.dumps

/-- Tool `get_company_tickers` from `server.py` under
`process_error`. -/
def get_company_tickers (client : Option ClientM) (eid : String) : String :=
  process_error fun _ => do
    let c ← requireClient client
    let v ← c.get_company_tickers eid
    pure v.dumps

/-- Tool `get_company_sic_description` from `server.py` under
`process_error`. -/
def get_company_sic_description (client : Option ClientM) (eid : String) : String :=
  process_error fun _ => do
    let c ← requireClient client
    let v ← c.get_company_sic_description eid
    pure v.dumps

/-- Tool `get_company_filings` from `server.py` under `process_error`:
cached fetch, pagination, then `json.dumps(result,
default=filing_serializer)`.  Returns the response string and the
cache state after the call. -/
def get_company_filings (client : Option ClientM) (st : CacheSt) (eid : String)
    (page pageSize : Int) : String × CacheSt :=
  let out := fetch_company_filings client st eid
  (process_error (fun _ => do
    let fl ← out.result
    let pr ← paginateFilings fl page pageSize
    pure (pageResultJson pr).dumps), out.state)

/-- Tool `get_latest_financials` from `server.py` under
`process_error`. -/
def get_latest_financials (client : Option ClientM) (eid : String) (tt : TableType)
    (annual : Bool) : String :=
  process_error fun _ => do
    let c ← requireClient client
    let rows ← c.get_latest_financials eid tt annual
    pure (JVal.arr (rows.map .obj)).dumps

/-- Sequence of `_fetch_company_filings` calls threading the cache
state; returns the final state and the total number of upstream
facade invocations. -/
def runFetches (client : Option ClientM) (st : CacheSt) : List String → CacheSt × Nat
  | [] => (st, 0)
  | k :: rest =>
    let out := fetch_company_filings client st k
    let next := runFetches client out.state rest
    (next.1, out.upstreamCalls + next.2)

/-- Total number of upstream facade invocations over a call sequence
started from the empty cache. -/
def totalCalls (client : Option ClientM) (keys : List String) : Nat :=
  (runFetches client initCache keys).2

/-- Number of upstream facade invocations whose argument is `target`
over a call sequence. -/
def countCallsFor (client : Option ClientM) (st : CacheSt) (target : String) :
    List String → Nat
  | [] => 0
  | k :: rest =>
    let out := fetch_company_filings client st k
    (if k = target then out.upstreamCalls else 0) + countCallsFor client out.state target rest

/-- Facade whose filings method always returns normally, computed by a
pure function; the other methods are unused by the cache claims. -/
def pureClient (f : String → List PyDict) : ClientM :=
  ⟨.error ⟨"", none, none⟩, .error ⟨"", none, none⟩,
    fun _ => .error ⟨"", none, none⟩, fun _ => .error ⟨"", none, none⟩,
    fun _ => .error ⟨"", none, none⟩, fun _ => .error ⟨"", none, none⟩,
    fun k => .ok (f k), fun _ _ _ => .error ⟨"", none, none⟩⟩

end Server

namespace EdgarSec

/-- Pandas DataFrame as far as this repository observes one: row index
labels, column names, and row-major cell values. -/
structure Frame where
  index : List String
  columns : List String
  rows : List (List JVal)

/-- Pandas `df.empty`: some axis has length zero. -/
def Frame.isEmpty (f : Frame) : Bool :=
  f.index.isEmpty || f.columns.isEmpty

/-- Record list produced by the tail of
`EdgarClient.get_latest_financials`: when the frame is non-empty,
`reset_index` + `rename(columns={"index": "label"})` prepend a
`"label"` entry from the row index to each row before
`to_dict(orient="records")`; an empty frame skips the reset and its
records are one empty dict per row. -/
def statementRecords (f : Frame) : List PyDict :=
  if f.isEmpty then f.index.map (fun _ => ([] : PyDict))
  else
    List.zipWith
      (fun lbl vals => ("label", JVal.str lbl) :: List.zipWith (fun c v => (c, v)) f.columns vals)
      f.index f.rows

/-- Financials object of the external library: the six statement
attributes, each possibly `None`. -/
structure Financials where
  balance_sheet : Option Frame
  income : Option Frame
  cashflow : Option Frame
  comprehensive_income : Option Frame
  equity : Option Frame
  cover : Option Frame

/-- Statement attribute selected by the `table_type` chain of
`elif`s in `EdgarClient.get_latest_financials`. -/
def statementOf (fin : Financials) : TableType → Option Frame
  | .balance_sheet => fin.balance_sheet
  | .income_statement => fin.income
  | .cash_flow_statement => fin.cashflow
  | .comprehensive_income => fin.comprehensive_income
  | .equity => fin.equity
  | .cover_page => fin.cover

/-- Company object resolved by `edgar.Company(entity_identifier)`, as
far as `client.py` observes it: the filings collection (`None` for a
falsy/absent collection) and the two financials properties. -/
structure CompanyM where
  get_filings : Except PyExc (Option (List PyDict))
  financials : Option Financials
  quarterly_financials : Option Financials

/-- Catch-all `except Exception` of each facade method: any internal
failure is re-raised as `EdgarError(opMsg + str(e), 500)`. -/
def wrapErr {α : Type} (opMsg : String) (x : Except PyExc α) : Except PyExc α :=
  match x with
  | .ok v => .ok v
  | .error e => .error (edgarError (opMsg ++ e.message) 500 "")

/-- Python truthiness test `x == 1` on a filings-frame cell (pandas
`filings_df.isXBRL == 1`): integer 1 and `True` compare equal to 1. -/
def pyEqOne : JVal → Bool
  | .num n => n == 1
  | .bool b => b
  | _ => false

/-- Column assignment `filings_df["isXBRL"] = filings_df.isXBRL == 1`
applied to one record (the `isXBRL` column is present on every
edgartools filings frame). -/
def setIsXBRL (row : PyDict) : PyDict :=
  row.map fun kv => if kv.1 = "isXBRL" then (kv.1, JVal.bool (pyEqOne kv.2)) else kv

/-- Pandas `df.filter(keys)` applied to one record: keep the listed
columns that exist, in the listed order. -/
def filterCols (keys : List String) (row : PyDict) : PyDict :=
  keys.filterMap fun k => (row.lookup k).map fun v => (k, v)

/-- Method `EdgarClient.get_company_filings` from `client.py` over the
company-resolution oracle `companies`: empty list for a falsy filings
collection, otherwise the four-column records with `isXBRL` made
boolean. -/
def get_company_filings (companies : String → Except PyExc EdgarSec.CompanyM) (eid : String) :
    Except PyExc (List PyDict) :=
  wrapErr "Failed to get company filings: " (do
    let co ← companies eid
    let fl ← co.get_filings
    match fl with
    | none => pure []
    | some rows =>
      pure (rows.map fun r =>
        filterCols ["form", "filing_date", "accession_number", "isXBRL"] (setIsXBRL r)))

/-- Method `EdgarClient.get_latest_financials` from `client.py` over
the company-resolution oracle: select annual or quarterly financials,
return `[]` when the financials object or the chosen statement is
absent, else the statement records. -/
def get_latest_financials (companies : String → Except PyExc EdgarSec.CompanyM) (eid : String)
    (tt : TableType) (annual : Bool) : Except PyExc (List PyDict) :=
  wrapErr "Failed to get company financials: " (do
    let co ← companies eid
    match (if annual then co.financials else co.quarterly_financials) with
    | none => pure []
    | some fin =>
      match statementOf fin tt with
      | none => pure []
      | some frame => pure (statementRecords frame))

/-- Raw row of `https://www.sec.gov/files/company_tickers.json` as
loaded into the startup DataFrame: integer CIK, ticker, title. -/
structure RawTicker where
  cik_str : Int
  ticker : String
  title : String

/-- Row of `ticker_cik_df` after the renames and
`astype(str).str.zfill(10)` in `EdgarClient.__init__`. -/
structure TickerEntry where
  cik : String
  ticker : String
  company_name : String

/-- Client state constructed by `EdgarClient.__init__`. -/
structure EdgarClientState where
  ticker_cik_df : List TickerEntry

/-- Outcome of the startup fetch `requests.get(...)` followed by
`raise_for_status()` and JSON decoding: a `RequestException` (network
failure or HTTP error status), some other exception (e.g. a decode
error), or the decoded table. -/
inductive FetchResult where
  | reqExc (msg : String)
  | otherExc (msg : String)
  | ok (raw : List RawTicker)

/-- Constructor `EdgarClient.__init__` from `client.py`:
`RequestException` becomes `EdgarError(..., 503)`, any other failure
becomes `EdgarError(..., 500)`, success builds the normalized ticker
table. -/
def init (fetched : FetchResult) : Except PyExc EdgarClientState :=
  match fetched with
  | .reqExc m => .error (edgarError ("Failed to initialize EDGAR client: " ++ m) 503 "")
  | .otherExc m => .error (edgarError ("Unexpected error during initialization: " ++ m) 500 "")
  | .ok raw =>
    .ok ⟨raw.map fun r => ⟨padZeros 10 (toString r.cik_str), r.ticker, r.title⟩⟩

end EdgarSec

/-- Envelope string demanded by the specification for an
uninitialized facade, written out verbatim for comparison with the
code's output. -/
def specNotInitializedEnvelope : String :=
  "\x7b\"error\": true, \"message\": \"EDGAR client not initialized\", \"code\": 503, \"traceback\": \"\"\x7d"

/-- Specification of the upstream-invocation pattern of a
capacity-one memo table: the calls whose identifier differs from the
immediately preceding call's identifier, counted after the
unconditional first call.  Written from the amended wording of the
cache claim, to be compared with the embedded `lru_cache(maxsize=1)`
behaviour. -/
def switchAux (prev : String) : List String → Nat
  | [] => 0
  | k :: rest => (if k = prev then 0 else 1) + switchAux k rest

/-- Total upstream invocations predicted for a capacity-one memo
table over a call sequence: one for the first call, plus one for each
later call whose identifier differs from its predecessor's. -/
def switchCount : List String → Nat
  | [] => 0
  | k :: rest => 1 + switchAux k rest

/-- C3: every error raised during a tool operation is converted by
`process_error` into the JSON object `{error: true, message, code,
traceback}` with `code` from the `error_code` attribute when present
(500 otherwise) and `traceback` from the `error_traceback` attribute
when present (empty otherwise); a normal result passes through, and
the wrapper's total return type means no exception ever propagates. -/
theorem C3_process_error_envelope (f : Unit → Except PyExc String) :
    (∀ s, f () = .ok s → process_error f = s) ∧
    (∀ e, f () = .error e →
      process_error f = JVal.dumps (JVal.obj
        [("error", .bool true), ("message", .str e.message),
          ("code", .num (match e.error_code with | some c => c | none => 500)),
          ("traceback", .str (match e.error_traceback with | some t => t | none => ""))])) := by
  constructor
  · intro s h
    simp [process_error, h]
  · intro e h
    simp only [process_error, h, errorEnvelope]
    cases e.error_code <;> cases e.error_traceback <;> rfl

/-- Witness for C3 at a concrete attribute-free exception. -/
theorem C3_witness :
    process_error (fun _ => .error ⟨"boom", none, none⟩) =
      JVal.dumps (JVal.obj [("error", .bool true), ("message", .str "boom"),
        ("code", .num 500), ("traceback", .str "")]) :=
  (C3_process_error_envelope (fun _ => .error ⟨"boom", none, none⟩)).2
    ⟨"boom", none, none⟩ rfl

/-- C4: with the global client instance absent and the filings cache
in its start-of-process state, each of the two resources and six tools
returns exactly the specified 503 envelope string, whatever its other
arguments are. -/
theorem C4_uninitialized_envelope (eid : String) (page pageSize : Int)
    (tt : TableType) (annual : Bool) :
    Server.get_valid_cik_ticker none = specNotInitializedEnvelope ∧
    Server.get_valid_forms none = specNotInitializedEnvelope ∧
    Server.get_company_info none eid = specNotInitializedEnvelope ∧
    Server.get_company_name none eid = specNotInitializedEnvelope ∧
    Server.get_company_tickers none eid = specNotInitializedEnvelope ∧
    Server.get_company_sic_description none eid = specNotInitializedEnvelope ∧
    (Server.get_company_filings none Server.initCache eid page pageSize).1 =
      specNotInitializedEnvelope ∧
    Server.get_latest_financials none eid tt annual = specNotInitializedEnvelope :=
  ⟨rfl, rfl, rfl, rfl, rfl, rfl, rfl, rfl⟩

/-- C7: a `RequestException` during the startup fetch of the ticker
reference table makes `EdgarClient.__init__` raise the single error
kind with code 503, and no client state is constructed. -/
theorem C7_init_network_failure (msg : String) :
    EdgarSec.init (.reqExc msg) =
      .error (edgarError ("Failed to initialize EDGAR client: " ++ msg) 503 "") ∧
    ∀ st, EdgarSec.init (.reqExc msg) ≠ .ok st := by
  refine ⟨rfl, ?_⟩
  intro st h
  simp [EdgarSec.init] at h

/-- Witness for C7 at a concrete failure message. -/
theorem C7_witness :
    EdgarSec.init (.reqExc "connection refused") =
      .error (edgarError ("Failed to initialize EDGAR client: " ++ "connection refused")
        503 "") :=
  (C7_init_network_failure "connection refused").1

/-- C10: `filing_serializer` is total — in this embedding it returns a
`String` for every object — and maps a `date` to its ISO 8601 form and
every non-date to `str(obj)`, its docstring's claimed `TypeError`
notwithstanding. -/
theorem C10_filing_serializer_total :
    (∀ y m d, filing_serializer (.pdate y m d) = isoformatDate y m d) ∧
    (∀ o : PyObj, isDateObj o = false → filing_serializer o = pyStr o) := by
  refine ⟨fun y m d => rfl, ?_⟩
  intro o _
  cases o <;> rfl

/-- Witness for C10 at a concrete non-date object. -/
theorem C10_witness :
    filing_serializer (.pint 42) = pyStr (.pint 42) :=
  (C10_filing_serializer_total).2 (.pint 42) rfl

/-- C8: starting from the empty cache and a facade whose filings
method returns normally, two consecutive lookups with the identical
identifier string invoke the upstream facade method exactly once, and
two consecutive lookups with two different identifier strings invoke
it twice. -/
theorem C8_cache_consecutive (f : String → List PyDict) (k k' : String) :
    Server.totalCalls (some (Server.pureClient f)) [k, k] = 1 ∧
    (k ≠ k' → Server.totalCalls (some (Server.pureClient f)) [k, k'] = 2) := by
  constructor
  · simp [Server.totalCalls, Server.runFetches, Server.fetch_company_filings,
      Server.fetchMiss, Server.initCache, Server.pureClient]
  · intro h
    simp [Server.totalCalls, Server.runFetches, Server.fetch_company_filings,
      Server.fetchMiss, Server.initCache, Server.pureClient, h]

/-- Witness for C8 at concrete identifiers. -/
theorem C8_witness :
    Server.totalCalls (some (Server.pureClient fun _ => [])) ["A", "A"] = 1 ∧
    Server.totalCalls (some (Server.pureClient fun _ => [])) ["A", "B"] = 2 :=
  ⟨(C8_cache_consecutive (fun _ => []) "A" "A").1,
    (C8_cache_consecutive (fun _ => []) "A" "B").2 (by decide)⟩

/-- C2 counterexample: with `maxsize=1`, the distinct identifier "B"
interleaved between two lookups of "A" evicts the entry, so "A" causes
two upstream invocations over the sequence, refuting "at most one
invocation per distinct identifier regardless of interleaving". -/
theorem C2_counterexample :
    Server.countCallsFor (some (Server.pureClient fun _ => [])) Server.initCache "A"
        ["A", "B", "A"] = 2 ∧
    ¬ Server.countCallsFor (some (Server.pureClient fun _ => [])) Server.initCache "A"
        ["A", "B", "A"] ≤ 1 :=
  ⟨rfl, by decide⟩

/-- Invariant behind the amended cache claim: with the single cache
slot holding `(p, f p)`, the upstream invocations over the remaining
calls are exactly the identifier switches. -/
theorem runFetches_cached_pure (f : String → List PyDict) (p : String)
    (rest : List String) :
    (Server.runFetches (some (Server.pureClient f)) ⟨some (p, f p)⟩ rest).2 =
      switchAux p rest := by
  induction rest generalizing p with
  | nil => rfl
  | cons k r ih =>
    by_cases h : p = k
    · subst h
      simp [Server.runFetches, Server.fetch_company_filings, switchAux, ih]
    · have hfetch : Server.fetch_company_filings (some (Server.pureClient f))
          ⟨some (p, f p)⟩ k = ⟨.ok (f k), ⟨some (k, f k)⟩, 1⟩ := by
        simp [Server.fetch_company_filings, Server.fetchMiss, Server.pureClient, h]
      simp only [Server.runFetches, hfetch, switchAux, if_neg (Ne.symm h)]
      have := ih k
      omega

/-- C2 amended: the filings cache never expires with time but holds
exactly one entry (`lru_cache(maxsize=1)`), so over any call sequence
the upstream facade method is invoked exactly once per call whose
identifier differs from the immediately preceding call's (the first
call included); a repeat of the previous identifier never re-invokes
upstream, while any intervening different identifier evicts the entry
and forces a re-fetch. -/
theorem C2_single_entry_cache (f : String → List PyDict) (keys : List String) :
    Server.totalCalls (some (Server.pureClient f)) keys = switchCount keys := by
  cases keys with
  | nil => rfl
  | cons k rest =>
    have hfetch : Server.fetch_company_filings (some (Server.pureClient f))
        Server.initCache k = ⟨.ok (f k), ⟨some (k, f k)⟩, 1⟩ := rfl
    simp only [Server.totalCalls, Server.runFetches, hfetch, switchCount]
    have := runFetches_cached_pure f k rest
    omega

/-- Decomposition of membership in a `zipWith`, used to read a row of
the statement records back to its index label. -/
theorem mem_zipWith_decomp {α β γ : Type} {f : α → β → γ} :
    ∀ {as : List α} {bs : List β} {c : γ}, c ∈ List.zipWith f as bs →
      ∃ a b, a ∈ as ∧ b ∈ bs ∧ c = f a b := by
  intro as
  induction as with
  | nil =>
    intro bs c h
    simp at h
  | cons a as ih =>
    intro bs c h
    cases bs with
    | nil => simp at h
    | cons b bs =>
      simp only [List.zipWith, List.mem_cons] at h
      rcases h with h | h
      · exact ⟨a, b, by simp, by simp, h⟩
      · rcases ih h with ⟨a', b', ha, hb, hc⟩
        exact ⟨a', b', by simp [ha], by simp [hb], hc⟩

/-- Reduction of a monadic bind on a successful `Except` value. -/
theorem ok_bind {ε α β : Type} (a : α) (f : α → Except ε β) :
    (Except.ok a >>= f : Except ε β) = f a := rfl

/-- Reduction of `pure` into the `Except` constructor. -/
theorem pure_eq_ok {ε α : Type} (a : α) : (pure a : Except ε α) = .ok a := rfl

/-- C6: the facade's `get_company_filings` returns the empty list,
not an error, whenever the company resolves and the backing source
reports a falsy filings collection. -/
theorem C6_no_filings_empty_list (companies : String → Except PyExc EdgarSec.CompanyM)
    (eid : String) (co : EdgarSec.CompanyM) (hco : companies eid = .ok co)
    (hf : co.get_filings = .ok none) :
    EdgarSec.get_company_filings companies eid = .ok [] := by
  simp [EdgarSec.get_company_filings, EdgarSec.wrapErr, hco, hf, ok_bind, pure_eq_ok]

/-- Witness for C6 at a concrete company with no filings. -/
theorem C6_witness :
    EdgarSec.get_company_filings (fun _ => .ok ⟨.ok none, none, none⟩) "AAPL" = .ok [] :=
  C6_no_filings_empty_list (fun _ => .ok ⟨.ok none, none, none⟩) "AAPL"
    ⟨.ok none, none, none⟩ rfl rfl

/-- C5: for every table kind and periodicity, `get_latest_financials`
returns `[]` when the financials object or the selected statement is
absent, and otherwise returns the statement's records, each row of a
non-empty frame starting with a `"label"` entry promoted from the
frame's row index. -/
theorem C5_latest_financials (companies : String → Except PyExc EdgarSec.CompanyM)
    (eid : String) (co : EdgarSec.CompanyM) (tt : TableType) (annual : Bool)
    (hco : companies eid = .ok co) :
    ((if annual then co.financials else co.quarterly_financials) = none →
      EdgarSec.get_latest_financials companies eid tt annual = .ok []) ∧
    (∀ fin, (if annual then co.financials else co.quarterly_financials) = some fin →
      EdgarSec.statementOf fin tt = none →
      EdgarSec.get_latest_financials companies eid tt annual = .ok []) ∧
    (∀ fin frame, (if annual then co.financials else co.quarterly_financials) = some fin →
      EdgarSec.statementOf fin tt = some frame →
      EdgarSec.get_latest_financials companies eid tt annual =
        .ok (EdgarSec.statementRecords frame) ∧
      (frame.isEmpty = false →
        ∀ r ∈ EdgarSec.statementRecords frame, ∃ lbl rest,
          r = ("label", JVal.str lbl) :: rest ∧ lbl ∈ frame.index)) := by
  refine ⟨?_, ?_, ?_⟩
  · intro hfin
    simp [EdgarSec.get_latest_financials, EdgarSec.wrapErr, hco, hfin, ok_bind, pure_eq_ok]
  · intro fin hfin hst
    simp [EdgarSec.get_latest_financials, EdgarSec.wrapErr, hco, hfin, hst, ok_bind,
      pure_eq_ok]
  · intro fin frame hfin hst
    constructor
    · simp [EdgarSec.get_latest_financials, EdgarSec.wrapErr, hco, hfin, hst, ok_bind,
        pure_eq_ok]
    · intro hempty r hr
      simp only [EdgarSec.statementRecords, hempty, Bool.false_eq_true, if_false] at hr
      rcases mem_zipWith_decomp hr with ⟨lbl, vals, hlbl, _, hform⟩
      exact ⟨lbl, _, hform, hlbl⟩

/-- Witness for C5 at a concrete one-row balance sheet. -/
theorem C5_witness :
    EdgarSec.get_latest_financials
        (fun _ => .ok ⟨.ok none, some ⟨some ⟨["Revenue"], ["2023"], [[.num 5]]⟩,
          none, none, none, none, none⟩, none⟩)
        "AAPL" .balance_sheet true =
      .ok [[("label", .str "Revenue"), ("2023", .num 5)]] :=
  ((C5_latest_financials
      (fun _ => .ok ⟨.ok none, some ⟨some ⟨["Revenue"], ["2023"], [[.num 5]]⟩,
        none, none, none, none, none⟩, none⟩)
      "AAPL" ⟨.ok none, some ⟨some ⟨["Revenue"], ["2023"], [[.num 5]]⟩,
        none, none, none, none, none⟩, none⟩ .balance_sheet true rfl).2.2
    ⟨some ⟨["Revenue"], ["2023"], [[.num 5]]⟩, none, none, none, none, none⟩
    ⟨["Revenue"], ["2023"], [[.num 5]]⟩ rfl rfl).1

/-- Python floor division agrees with natural division on
nonnegative literals cast from naturals. -/
theorem fdiv_natCast (a b : Nat) : Int.fdiv (a : Int) (b : Int) = ((a / b : Nat) : Int) := by
  cases a with
  | zero => simp [Int.fdiv]
  | succ n => rfl

/-- CPython slicing at the indices produced by the pagination code:
`xs[s : min (s + P) len]` for natural `s`, `P` is `(xs.drop s).take P`. -/
theorem pySlice_nat {α : Type} (xs : List α) (s P : Nat) :
    Server.pySlice xs (s : Int) (min ((s : Int) + (P : Int)) (xs.length : Int)) =
      (xs.drop s).take P := by
  have hstop : min ((s : Int) + (P : Int)) (xs.length : Int) =
      ((min (s + P) xs.length : Nat) : Int) := by
    push_cast
    rfl
  rw [Server.pySlice, hstop]
  have h1 : Server.pySliceBound xs.length (s : Int) = min s xs.length := by
    rw [Server.pySliceBound, if_neg (by omega)]
    simp
  have h2 : Server.pySliceBound xs.length ((min (s + P) xs.length : Nat) : Int) =
      min (s + P) xs.length := by
    rw [Server.pySliceBound, if_neg (by omega)]
    simp
    omega
  rw [h1, h2]
  rcases le_or_lt s xs.length with hs | hs
  · have hmin : min s xs.length = s := by omega
    rw [hmin, List.drop_take]
    have hsub : min (s + P) xs.length - s = min P (xs.length - s) := by omega
    rw [hsub]
    have hlen : (xs.drop s).length = xs.length - s := List.length_drop s xs
    rcases le_or_lt P (xs.length - s) with hp | hp
    · have hmin2 : min P (xs.length - s) = P := by omega
      rw [hmin2]
    · have hmin2 : min P (xs.length - s) = xs.length - s := by omega
      rw [hmin2, ← hlen, List.take_length,
        List.take_of_length_le (by omega : (xs.drop s).length ≤ P)]
  · have hmin : min s xs.length = xs.length := by omega
    have hlt : (xs.take (min (s + P) xs.length)).length ≤ xs.length := by
      rw [List.length_take]
      omega
    rw [hmin, List.drop_eq_nil_of_le hlt,
      List.drop_eq_nil_of_le (by omega : xs.length ≤ s), List.take_nil]

/-- Characterization of `(n + p - 1) / p` as the ceiling of `n / p`:
it is the least `t` with `n ≤ t * p`. -/
theorem ceil_div_char (n p : Nat) (hp : 1 ≤ p) :
    n ≤ (n + p - 1) / p * p ∧ ∀ t : Nat, n ≤ t * p → (n + p - 1) / p ≤ t := by
  constructor
  · have hlt := (Nat.div_lt_iff_lt_mul (by omega : 0 < p)).1
      (Nat.lt_succ_self ((n + p - 1) / p))
    have h2 : ((n + p - 1) / p + 1) * p = (n + p - 1) / p * p + p := by ring
    rw [h2] at hlt
    have key : ∀ m : Nat, n + p - 1 < m + p → n ≤ m := by
      intro m hm
      omega
    exact key _ hlt
  · intro t ht
    have key : ∀ m : Nat, n ≤ m → n + p - 1 < m + p := by
      intro m hm
      omega
    have hlt : n + p - 1 < (t + 1) * p := by
      have h2 : (t + 1) * p = t * p + p := by ring
      rw [h2]
      exact key (t * p) ht
    exact Nat.lt_succ_iff.mp ((Nat.div_lt_iff_lt_mul (by omega : 0 < p)).2 hlt)

/-- C1: for a filing list of length `N`, page size `P ≥ 1` and page
`K ≥ 1`, the pagination body succeeds with exactly the slice of
indices `[(K-1)P, min(KP, N))`, metadata `page = K`, `page_size = P`,
`total_items = N` and `total_pages = (N + P - 1) / P` — which is the
ceiling of `N / P`, the least `t` with `N ≤ t·P` — a page past the end
yields the empty slice with the same totals, and the tool returns the
JSON dump of exactly this result whenever the cached fetch supplies
the list. -/
theorem C1_pagination (fl : List PyDict) (K P : Nat) (hK : 1 ≤ K) (hP : 1 ≤ P) :
    Server.paginateFilings fl (K : Int) (P : Int) =
      .ok ⟨(fl.drop ((K - 1) * P)).take P, (K : Int), (P : Int), (fl.length : Int),
        (((fl.length + P - 1) / P : Nat) : Int)⟩ ∧
    (fl.length ≤ (K - 1) * P → (fl.drop ((K - 1) * P)).take P = []) ∧
    (fl.length ≤ (fl.length + P - 1) / P * P ∧
      ∀ t : Nat, fl.length ≤ t * P → (fl.length + P - 1) / P ≤ t) ∧
    (∀ c st eid, (Server.fetch_company_filings (some c) st eid).result = .ok fl →
      (Server.get_company_filings (some c) st eid (K : Int) (P : Int)).1 =
        JVal.dumps (Server.pageResultJson ⟨(fl.drop ((K - 1) * P)).take P, (K : Int),
          (P : Int), (fl.length : Int), (((fl.length + P - 1) / P : Nat) : Int)⟩)) := by
  have hPne : ((P : Int) = 0) = False := by
    simp
    omega
  have hstart : ((K : Int) - 1) * (P : Int) = (((K - 1) * P : Nat) : Int) := by
    have h1 : (K : Int) - 1 = ((K - 1 : Nat) : Int) := by omega
    rw [h1]
    push_cast
    ring
  have hfdiv : Int.fdiv ((fl.length : Int) + (P : Int) - 1) (P : Int) =
      (((fl.length + P - 1) / P : Nat) : Int) := by
    have hc : (fl.length : Int) + (P : Int) - 1 = ((fl.length + P - 1 : Nat) : Int) := by
      omega
    rw [hc, fdiv_natCast]
  have hmain : Server.paginateFilings fl (K : Int) (P : Int) =
      .ok ⟨(fl.drop ((K - 1) * P)).take P, (K : Int), (P : Int), (fl.length : Int),
        (((fl.length + P - 1) / P : Nat) : Int)⟩ := by
    simp only [Server.paginateFilings, hPne, if_false, hstart, hfdiv,
      pySlice_nat fl ((K - 1) * P) P]
  refine ⟨hmain, ?_, ceil_div_char fl.length P hP, ?_⟩
  · intro h
    rw [List.drop_eq_nil_of_le h, List.take_nil]
  · intro c st eid hres
    simp [Server.get_company_filings, process_error, hres, hmain, ok_bind, pure_eq_ok]

/-- Witness for C1 at the specification's own example, `N = 5`,
`P = 2`, `K = 2`: the page holds the records at indices 2 and 3 and
`total_pages = 3`. -/
theorem C1_witness :
    Server.paginateFilings
        [[("i", JVal.num 0)], [("i", JVal.num 1)], [("i", JVal.num 2)],
          [("i", JVal.num 3)], [("i", JVal.num 4)]] 2 2 =
      .ok ⟨[[("i", JVal.num 2)], [("i", JVal.num 3)]], 2, 2, 5, 3⟩ :=
  (C1_pagination
    [[("i", JVal.num 0)], [("i", JVal.num 1)], [("i", JVal.num 2)],
      [("i", JVal.num 3)], [("i", JVal.num 4)]] 2 2 (by decide) (by decide)).1

/-- C9: with an initialized client and a filings fetch that returns a
list, calling the filings tool with `page_size = 0` yields the
envelope of the `ZeroDivisionError` raised by the unguarded
`total_pages` division — a JSON object with `error: true` and code
500, not a filings result. -/
theorem C9_zero_page_size (c : ClientM) (st : Server.CacheSt) (eid : String)
    (page : Int) (fl : List PyDict)
    (hres : (Server.fetch_company_filings (some c) st eid).result = .ok fl) :
    (Server.get_company_filings (some c) st eid page 0).1 =
      JVal.dumps (errorEnvelope zeroDivisionError) ∧
    JVal.dumps (errorEnvelope zeroDivisionError) =
      "\x7b\"error\": true, \"message\": \"integer division or modulo by zero\", \"code\": 500, \"traceback\": \"\"\x7d" := by
  constructor
  · have hpag : Server.paginateFilings fl page 0 = .error zeroDivisionError := by
      simp [Server.paginateFilings]
    simp [Server.get_company_filings, process_error, hres, hpag, ok_bind]
  · rfl

/-- Witness for C9 at a concrete empty filing list. -/
theorem C9_witness :
    (Server.get_company_filings (some (Server.pureClient fun _ => []))
        Server.initCache "AAPL" 1 0).1 =
      JVal.dumps (errorEnvelope zeroDivisionError) :=
  (C9_zero_page_size (Server.pureClient fun _ => []) Server.initCache "AAPL" 1 [] rfl).1
